import Mathlib

/-!
Verification of the mesh-hollowing transform in `make_hollow.py`.

The script loads a triangular mesh, computes a uniformly scaled inner copy
about the mesh centroid, flips the winding of the inner faces, concatenates
outer and inner meshes, and exports the result.  We embed the pure geometric
core over exact rationals (the Python code uses IEEE doubles; every claim we
settle is either exact arithmetic on dyadic-representable constants or a
structural property of the vertex/face sequences, where the two semantics
agree, except where noted at the degenerate division-by-zero input).

The centroid (`mesh.centroid` in the script) and the watertightness check
(`mesh.is_watertight`) are attributes computed inside the external `trimesh`
library, whose code is not part of this repository; they are taken as
parameters of the embedding.  File I/O (load, export) is modelled by an
abstract outcome record for the error-handling claims.
-/

/-- A 3D point with exact rational coordinates
(the script stores vertices as float triples). -/
structure Vec3 where
  x : ℚ
  y : ℚ
  z : ℚ
deriving DecidableEq, Repr

/-- A triangle as an ordered triple of vertex indices
(a row of the `faces` array). -/
abbrev Face := Nat × Nat × Nat

/-- A triangular surface mesh: ordered vertex positions plus ordered faces,
mirroring `mesh.vertices` and `mesh.faces`. -/
structure Mesh where
  vertices : List Vec3
  faces : List Face
deriving DecidableEq, Repr

/-- Python's two-argument `min` on rationals, written as an explicit
conditional. -/
def qmin (a b : ℚ) : ℚ := if a ≤ b then a else b

/-- Python's two-argument `max` on rationals. -/
def qmax (a b : ℚ) : ℚ := if a ≤ b then b else a

/-- Minimum of a list of rationals (first element seeds the fold;
the bounding box of the script is only queried on nonempty meshes). -/
def listMin : List ℚ → ℚ
  | [] => 0
  | q :: qs => qs.foldl qmin q

/-- Maximum of a list of rationals. -/
def listMax : List ℚ → ℚ
  | [] => 0
  | q :: qs => qs.foldl qmax q

/-- Lower corner of the axis-aligned bounding box, `mesh.bounds[0]`. -/
def boundsLo (m : Mesh) : Vec3 :=
  ⟨listMin (m.vertices.map Vec3.x),
   listMin (m.vertices.map Vec3.y),
   listMin (m.vertices.map Vec3.z)⟩

/-- Upper corner of the axis-aligned bounding box, `mesh.bounds[1]`. -/
def boundsHi (m : Mesh) : Vec3 :=
  ⟨listMax (m.vertices.map Vec3.x),
   listMax (m.vertices.map Vec3.y),
   listMax (m.vertices.map Vec3.z)⟩

/-- `dimensions = bounds[1] - bounds[0]` (line 31 of the script). -/
def dimensions (m : Mesh) : Vec3 :=
  ⟨(boundsHi m).x - (boundsLo m).x,
   (boundsHi m).y - (boundsLo m).y,
   (boundsHi m).z - (boundsLo m).z⟩

/-- `min_dim = min(dimensions)` (line 35). -/
def min_dim (m : Mesh) : ℚ :=
  qmin (dimensions m).x (qmin (dimensions m).y (dimensions m).z)

/-- `scale_factor = (min_dim - 2 * wall_thickness) / min_dim` before
clamping (line 36).  Over ℚ a division by zero yields 0; the script's IEEE
doubles instead give ±∞ or NaN there — the degenerate case is treated
separately below. -/
def rawScale (m : Mesh) (wall_thickness : ℚ) : ℚ :=
  (min_dim m - 2 * wall_thickness) / min_dim m

/-- `scale_factor = max(0.7, min(scale_factor, 0.95))` (line 40). -/
def scale_factor (m : Mesh) (wall_thickness : ℚ) : ℚ :=
  qmax (7/10) (qmin (rawScale m wall_thickness) (19/20))

/-- `(v - center) * scale_factor + center`, componentwise (line 50). -/
def scaleVertex (center : Vec3) (s : ℚ) (v : Vec3) : Vec3 :=
  ⟨(v.x - center.x) * s + center.x,
   (v.y - center.y) * s + center.y,
   (v.z - center.z) * s + center.z⟩

/-- Inverse of `scaleVertex`: `(v' - center) / scale + center`
(the round-trip map named by the spec). -/
def unscaleVertex (center : Vec3) (s : ℚ) (v : Vec3) : Vec3 :=
  ⟨(v.x - center.x) / s + center.x,
   (v.y - center.y) / s + center.y,
   (v.z - center.z) / s + center.z⟩

/-- `np.fliplr` on one row of the faces array: reverse the index triple
(line 53). -/
def flipFace : Face → Face
  | (a, b, c) => (c, b, a)

/-- The inner mesh: a copy of `m` with every vertex scaled about `center`
and every face winding reversed (lines 46–53). -/
def innerMesh (m : Mesh) (center : Vec3) (s : ℚ) : Mesh :=
  ⟨m.vertices.map (scaleVertex center s), m.faces.map flipFace⟩

/-- Shift a face's indices by `n`, as concatenation does to the second
mesh's faces. -/
def offsetFace (n : Nat) : Face → Face
  | (a, b, c) => (a + n, b + n, c + n)

/-- `trimesh.util.concatenate([a, b])`: stack the vertex sequences and the
face sequences, offsetting the second mesh's indices by the first mesh's
vertex count (line 57).  No deduplication. -/
def concatenate (a b : Mesh) : Mesh :=
  ⟨a.vertices ++ b.vertices,
   a.faces ++ b.faces.map (offsetFace a.vertices.length)⟩

/-- The pure geometric core of `make_hollow` (lines 28–57): scale the mesh
about its centroid by the clamped factor, flip the inner winding, and
concatenate.  `centroid` abstracts the external library attribute
`mesh.centroid`. -/
def make_hollow (centroid : Mesh → Vec3) (m : Mesh) (wall_thickness : ℚ) : Mesh :=
  concatenate m (innerMesh m (centroid m) (scale_factor m wall_thickness))

/-- The observable outcome of one invocation of the script's linear
pipeline: the watertightness value printed as a diagnostic (if that line was
reached), how many times export was attempted, the content written to the
output path (`none` = path unwritten), and whether the invocation
succeeded. -/
structure Outcome where
  watertightDiag : Option Bool
  exportAttempts : Nat
  outputWritten : Option Mesh
  succeeded : Bool
deriving DecidableEq, Repr

/-- Abstract model of the whole `make_hollow` invocation (lines 19–69):
`loadRes` is the result of `trimesh.load_mesh` (`none` = load raised),
`watertight` is the library's `is_watertight` attribute, and `exportOk`
says whether the single `hollow_mesh.export` call succeeds.  The pipeline
is straight-line Python: an exception at any step skips every later step,
and the only write to the output path is the one export call, modelled as
atomic (it either completes or leaves the path unwritten). -/
def run_make_hollow (loadRes : Option Mesh) (watertight : Mesh → Bool)
    (exportOk : Mesh → Bool) (centroid : Mesh → Vec3) (wall_thickness : ℚ) :
    Outcome :=
  match loadRes with
  | none => ⟨none, 0, none, false⟩
  | some mesh =>
      let hollow := make_hollow centroid mesh wall_thickness
      if exportOk hollow then
        ⟨some (watertight mesh), 1, some hollow, true⟩
      else
        ⟨some (watertight mesh), 1, none, false⟩

/-- A unit cube (bounding box 1×1×1): 8 corner vertices and 12 triangles. -/
def unitCube : Mesh :=
  ⟨[⟨0,0,0⟩, ⟨1,0,0⟩, ⟨1,1,0⟩, ⟨0,1,0⟩, ⟨0,0,1⟩, ⟨1,0,1⟩, ⟨1,1,1⟩, ⟨0,1,1⟩],
   [(0,2,1), (0,3,2), (4,5,6), (4,6,7),
    (0,1,5), (0,5,4), (1,2,6), (1,6,5),
    (2,3,7), (2,7,6), (3,0,4), (3,4,7)]⟩

/-- A degenerate flat mesh: a unit square in the plane z = 0, so its
bounding box has zero extent along z and `min_dim = 0`. -/
def flatMesh : Mesh :=
  ⟨[⟨0,0,0⟩, ⟨1,0,0⟩, ⟨1,1,0⟩, ⟨0,1,0⟩],
   [(0,1,2), (0,2,3)]⟩

/-- The three vertex indices of a face, in order. -/
def faceList (f : Face) : List Nat :=
  [f.1, f.2.1, f.2.2]

/-- The (unordered) set of vertex indices of a face. -/
def faceIndexSet (f : Face) : Finset Nat :=
  {f.1, f.2.1, f.2.2}

theorem qmin_eq_min (a b : ℚ) : qmin a b = min a b := by
  simp [qmin, min_def]

theorem qmax_eq_max (a b : ℚ) : qmax a b = max a b := by
  simp [qmax, max_def]

theorem min_dim_unitCube : min_dim unitCube = 1 := by
  norm_num [min_dim, dimensions, boundsLo, boundsHi, listMin, listMax,
    qmin, qmax, unitCube]

theorem min_dim_flatMesh : min_dim flatMesh = 0 := by
  norm_num [min_dim, dimensions, boundsLo, boundsHi, listMin, listMax,
    qmin, qmax, flatMesh]

/-- The clamp's lower bound holds for every mesh and wall thickness. -/
theorem scale_factor_lower (m : Mesh) (wt : ℚ) : 7/10 ≤ scale_factor m wt := by
  rw [scale_factor, qmax_eq_max]
  exact le_max_left _ _

/-- The clamp's upper bound holds for every mesh and wall thickness. -/
theorem scale_factor_upper (m : Mesh) (wt : ℚ) : scale_factor m wt ≤ 19/20 := by
  rw [scale_factor, qmax_eq_max, qmin_eq_min]
  exact max_le (by norm_num) (min_le_right _ _)

theorem scale_factor_pos (m : Mesh) (wt : ℚ) : 0 < scale_factor m wt :=
  lt_of_lt_of_le (by norm_num) (scale_factor_lower m wt)

/-- Undoing the uniform scaling recovers the vertex, provided the scale is
nonzero. -/
theorem unscale_scale (c : Vec3) (s : ℚ) (hs : s ≠ 0) (v : Vec3) :
    unscaleVertex c s (scaleVertex c s v) = v := by
  cases v
  cases c
  simp only [scaleVertex, unscaleVertex, Vec3.mk.injEq]
  refine ⟨?_, ?_, ?_⟩ <;> field_simp

/-- Reversing a face's winding reverses its index list. -/
theorem faceList_flipFace (f : Face) : faceList (flipFace f) = (faceList f).reverse := by
  rcases f with ⟨a, b, c⟩
  simp [faceList, flipFace]

/-- Reversing a face's winding leaves its index set unchanged. -/
theorem faceIndexSet_flipFace (f : Face) : faceIndexSet (flipFace f) = faceIndexSet f := by
  rcases f with ⟨a, b, c⟩
  simp only [faceIndexSet, flipFace]
  ext n
  simp
  tauto

/-- C1: `make_hollow` computes the raw scale `(min_dim - 2*wall_thickness)/min_dim`
and clamps it to [0.7, 0.95]; for a unit cube, `wall_thickness = 0.1` gives
scale exactly 0.8, `0.3` clamps to exactly 0.7, and `0.001` clamps to
exactly 0.95. -/
theorem scale_factor_clamp_and_cube_instances (m : Mesh) (wt : ℚ)
    (hpos : 0 < min_dim m) :
    rawScale m wt = (min_dim m - 2 * wt) / min_dim m
    ∧ scale_factor m wt = max (7/10) (min (rawScale m wt) (19/20))
    ∧ scale_factor unitCube (1/10) = 4/5
    ∧ scale_factor unitCube (3/10) = 7/10
    ∧ scale_factor unitCube (1/1000) = 19/20 := by
  refine ⟨rfl, by rw [scale_factor, qmax_eq_max, qmin_eq_min], ?_, ?_, ?_⟩ <;>
    norm_num [scale_factor, rawScale, min_dim_unitCube, qmin, qmax]

/-- Witness for C1 at the unit cube. -/
theorem scale_factor_clamp_and_cube_instances_witness :
    0 < min_dim unitCube
    ∧ (rawScale unitCube 2 = (min_dim unitCube - 2 * 2) / min_dim unitCube
      ∧ scale_factor unitCube 2 = max (7/10) (min (rawScale unitCube 2) (19/20))
      ∧ scale_factor unitCube (1/10) = 4/5
      ∧ scale_factor unitCube (3/10) = 7/10
      ∧ scale_factor unitCube (1/1000) = 19/20) :=
  ⟨by rw [min_dim_unitCube]; norm_num,
   scale_factor_clamp_and_cube_instances unitCube 2
     (by rw [min_dim_unitCube]; norm_num)⟩

/-- C2: the hollow output has exactly twice the input's vertex and face
counts; its vertex sequence is the original vertices followed by the inner
copy's, and its face sequence is the original faces followed by the inner
faces offset by the original vertex count. -/
theorem make_hollow_concat_counts (centroid : Mesh → Vec3) (m : Mesh) (wt : ℚ) :
    (make_hollow centroid m wt).vertices.length = 2 * m.vertices.length
    ∧ (make_hollow centroid m wt).faces.length = 2 * m.faces.length
    ∧ (make_hollow centroid m wt).vertices
        = m.vertices ++ (innerMesh m (centroid m) (scale_factor m wt)).vertices
    ∧ (make_hollow centroid m wt).faces
        = m.faces ++ (innerMesh m (centroid m) (scale_factor m wt)).faces.map
            (offsetFace m.vertices.length) := by
  refine ⟨?_, ?_, rfl, rfl⟩ <;>
    simp [make_hollow, concatenate, innerMesh, two_mul]

/-- C3: each inner-shell face lists the same three vertex indices as the
corresponding original face, in reverse order. -/
theorem inner_faces_reversed (m : Mesh) (c : Vec3) (s : ℚ) (i : Nat) :
    ((innerMesh m c s).faces[i]?).map faceList
        = (m.faces[i]?).map (fun f => (faceList f).reverse)
    ∧ ((innerMesh m c s).faces[i]?).map faceIndexSet
        = (m.faces[i]?).map faceIndexSet := by
  constructor <;> ·
    simp only [innerMesh, List.getElem?_map, Option.map_map]
    cases m.faces[i]? with
    | none => rfl
    | some f => simp [Function.comp, faceList_flipFace, faceIndexSet_flipFace]

/-- C4: the inner-shell vertices of the hollow output are exactly
`(v - centroid) * scale + centroid` for the original vertices `v`, and the
inverse map `(v' - centroid)/scale + centroid` reproduces the original
vertex list exactly over exact rationals. -/
theorem inner_vertices_roundtrip (centroid : Mesh → Vec3) (m : Mesh) (wt : ℚ) :
    (make_hollow centroid m wt).vertices.drop m.vertices.length
        = m.vertices.map (scaleVertex (centroid m) (scale_factor m wt))
    ∧ ((make_hollow centroid m wt).vertices.drop m.vertices.length).map
        (unscaleVertex (centroid m) (scale_factor m wt)) = m.vertices := by
  have hdrop : (make_hollow centroid m wt).vertices.drop m.vertices.length
      = m.vertices.map (scaleVertex (centroid m) (scale_factor m wt)) := by
    simp [make_hollow, concatenate, innerMesh]
  refine ⟨hdrop, ?_⟩
  rw [hdrop, List.map_map]
  have hs : scale_factor m wt ≠ 0 := ne_of_gt (scale_factor_pos m wt)
  have hcomp : unscaleVertex (centroid m) (scale_factor m wt)
      ∘ scaleVertex (centroid m) (scale_factor m wt) = id := by
    funext v
    exact unscale_scale _ _ hs v
  rw [hcomp, List.map_id]

/-- C7: the original mesh is never mutated: the hollow output's leading
vertex and face segments are the input's, unchanged (the transform touches
only the deep copy). -/
theorem original_mesh_unchanged (centroid : Mesh → Vec3) (m : Mesh) (wt : ℚ) :
    (make_hollow centroid m wt).vertices.take m.vertices.length = m.vertices
    ∧ (make_hollow centroid m wt).faces.take m.faces.length = m.faces := by
  constructor
  · exact List.take_left m.vertices _
  · exact List.take_left m.faces _

/-- C6 counterexample: on a degenerate flat mesh with `min_dim = 0`, the
code does not reject the input — there is no error path in `make_hollow`
at all: the unguarded scale division flows into the clamp (the script's
IEEE doubles give `-inf`, clamped to 0.7, for positive wall thickness; the
exact-rational embedding's division by zero gives 0, clamped to the same
0.7) and a hollow output mesh is still produced. -/
theorem flat_mesh_not_rejected :
    min_dim flatMesh = 0
    ∧ scale_factor flatMesh 2 = 7/10
    ∧ (make_hollow (fun _ => (⟨0,0,0⟩ : Vec3)) flatMesh 2).vertices.length = 8
    ∧ (make_hollow (fun _ => (⟨0,0,0⟩ : Vec3)) flatMesh 2).faces.length = 4 := by
  refine ⟨min_dim_flatMesh, ?_, ?_, ?_⟩
  · rw [scale_factor, rawScale, min_dim_flatMesh]
    norm_num [qmin, qmax]
  · simp [make_hollow, concatenate, innerMesh, flatMesh]
  · simp [make_hollow, concatenate, innerMesh, flatMesh]

/-- C6 (amended): `make_hollow` has no degenerate-input guard: for any mesh
with `min_dim = 0` and positive wall thickness the scale division is
unguarded, the clamp yields exactly 0.7, and an output mesh with doubled
vertex count is still produced (no `GeometryError` is raised; the spec's
rejection requirement is addressed to reimplementations). -/
theorem degenerate_min_dim_unguarded (m : Mesh) (centroid : Mesh → Vec3)
    (wt : ℚ) (h0 : min_dim m = 0) (hwt : 0 < wt) :
    scale_factor m wt = 7/10
    ∧ (make_hollow centroid m wt).vertices.length = 2 * m.vertices.length := by
  constructor
  · rw [scale_factor, rawScale, h0]
    norm_num [qmin, qmax]
  · simp [make_hollow, concatenate, innerMesh, two_mul]

/-- Witness for the amended C6 at the flat square mesh. -/
theorem degenerate_min_dim_unguarded_witness :
    (min_dim flatMesh = 0 ∧ (0 : ℚ) < 2)
    ∧ (scale_factor flatMesh 2 = 7/10
      ∧ (make_hollow (fun _ => (⟨1,1,1⟩ : Vec3)) flatMesh 2).vertices.length
          = 2 * flatMesh.vertices.length) :=
  ⟨⟨min_dim_flatMesh, by norm_num⟩,
   degenerate_min_dim_unguarded flatMesh (fun _ => (⟨1,1,1⟩ : Vec3)) 2
     min_dim_flatMesh (by norm_num)⟩

/-- C8: watertightness is a printed diagnostic only: the pipeline records
the library's answer in the diagnostic field, the written output is
independent of that answer, export is still attempted, and when export
succeeds the hollow mesh is written regardless of watertightness. -/
theorem watertightness_diagnostic_only (m : Mesh) (wt : ℚ)
    (centroid : Mesh → Vec3) (w1 w2 : Mesh → Bool) (exportOk : Mesh → Bool) :
    (run_make_hollow (some m) w1 exportOk centroid wt).watertightDiag = some (w1 m)
    ∧ (run_make_hollow (some m) w1 exportOk centroid wt).outputWritten
        = (run_make_hollow (some m) w2 exportOk centroid wt).outputWritten
    ∧ (run_make_hollow (some m) w1 exportOk centroid wt).exportAttempts = 1
    ∧ (exportOk (make_hollow centroid m wt) = true →
        (run_make_hollow (some m) w1 exportOk centroid wt).outputWritten
          = some (make_hollow centroid m wt)) := by
  simp only [run_make_hollow]
  split <;> simp_all

/-- Witness for C8: a mesh reported as non-watertight is still exported. -/
theorem watertightness_diagnostic_only_witness :
    (run_make_hollow (some unitCube) (fun _ => false) (fun _ => true)
        (fun _ => (⟨0,0,0⟩ : Vec3)) 2).outputWritten
      = some (make_hollow (fun _ => (⟨0,0,0⟩ : Vec3)) unitCube 2) :=
  (watertightness_diagnostic_only unitCube 2 (fun _ => (⟨0,0,0⟩ : Vec3))
    (fun _ => false) (fun _ => true) (fun _ => true)).2.2.2 rfl

/-- C9: every failure is fatal to the single invocation: a failed run
writes nothing to the output path, export is attempted at most once (no
retry) and not at all when loading failed, and anything written is the
complete hollow mesh of a successful run. -/
theorem errors_fatal_no_partial_output (loadRes : Option Mesh)
    (watertight : Mesh → Bool) (exportOk : Mesh → Bool)
    (centroid : Mesh → Vec3) (wt : ℚ) :
    ((run_make_hollow loadRes watertight exportOk centroid wt).succeeded = false →
        (run_make_hollow loadRes watertight exportOk centroid wt).outputWritten = none)
    ∧ (run_make_hollow loadRes watertight exportOk centroid wt).exportAttempts ≤ 1
    ∧ (loadRes = none →
        (run_make_hollow loadRes watertight exportOk centroid wt).exportAttempts = 0)
    ∧ (∀ h, (run_make_hollow loadRes watertight exportOk centroid wt).outputWritten
          = some h →
        ∃ mm, loadRes = some mm ∧ h = make_hollow centroid mm wt
          ∧ (run_make_hollow loadRes watertight exportOk centroid wt).succeeded
              = true) := by
  cases loadRes with
  | none => simp [run_make_hollow]
  | some mesh =>
      simp only [run_make_hollow]
      split <;> simp_all

/-- Witness for C9: a failed load leaves the output path unwritten. -/
theorem errors_fatal_no_partial_output_witness :
    (run_make_hollow none (fun _ => true) (fun _ => true)
        (fun _ => (⟨0,0,0⟩ : Vec3)) 2).outputWritten = none :=
  (errors_fatal_no_partial_output none (fun _ => true) (fun _ => true)
    (fun _ => (⟨0,0,0⟩ : Vec3)) 2).1 rfl

/-- C10: `wall_thickness` is never validated: for every rational wall
thickness — zero, negative, or exceeding half the smallest dimension — and
every mesh of positive `min_dim`, the clamped scale stays in [0.7, 0.95],
strictly between 0 and 1, so the inner shell is strictly smaller than the
outer and never inverted or degenerate. -/
theorem wall_thickness_unvalidated (m : Mesh) (wt : ℚ) (hpos : 0 < min_dim m) :
    7/10 ≤ scale_factor m wt ∧ scale_factor m wt ≤ 19/20
    ∧ 0 < scale_factor m wt ∧ scale_factor m wt < 1 :=
  ⟨scale_factor_lower m wt, scale_factor_upper m wt, scale_factor_pos m wt,
   lt_of_le_of_lt (scale_factor_upper m wt) (by norm_num)⟩

/-- Witness for C10 at the unit cube with a negative wall thickness. -/
theorem wall_thickness_unvalidated_witness :
    0 < min_dim unitCube
    ∧ (7/10 ≤ scale_factor unitCube (-3) ∧ scale_factor unitCube (-3) ≤ 19/20
      ∧ 0 < scale_factor unitCube (-3) ∧ scale_factor unitCube (-3) < 1) :=
  ⟨by rw [min_dim_unitCube]; norm_num,
   wall_thickness_unvalidated unitCube (-3) (by rw [min_dim_unitCube]; norm_num)⟩
